import Mathlib

/-!
Shallow embedding of src/src/main.rs of the wgpu-gltf scaffold.

The program is a single-file winit/wgpu application. The parts relevant to
the claims are:
  - State (main.rs:35-46): window size, device, surface, depth texture.
  - State::configure_surface (main.rs:163-196): applies a SurfaceConfiguration
    built from the current size and creates a fresh depth texture of that size.
  - State::resize (main.rs:198-203): stores the new size and unconditionally
    calls configure_surface.
  - State::render (main.rs:205-268): acquires the surface texture with
    get_current_texture().expect(..) (a panic on any acquisition error),
    builds one render pass (clear color 0.3/0.3/0.3/1.0, depth clear 1.0,
    stencil clear 0), binds the pipeline and vertex buffer, draws 0..3 / 0..1,
    submits, notifies and presents.
  - App::window_event (main.rs:308-333): unwraps self.state before matching
    on the event, so any event delivered while state is None panics.
  - App::can_create_surfaces (main.rs:291-306) with State::new
    (main.rs:49-157): one-time initialization order.

GPU object identity is instrumented with a texture id counter on the device:
each create_texture call returns a texture carrying a fresh id, which models
the fact that the Rust code creates a new wgpu texture object rather than
resizing one in place. Floating point clear values appear only as literal
constants that are passed through unchanged, so they are modelled as
rationals. Environmental effects (the outcome of frame acquisition) are
passed to render as an explicit argument; a Rust panic is modelled as the
error side of Except.
-/

namespace WgpuGltf

/-- Physical pixel size of the window surface (winit PhysicalSize of u32). -/
structure PhysicalSize where
  width : Nat
  height : Nat
deriving DecidableEq

/-- The fields of the wgpu SurfaceConfiguration built in configure_surface
(main.rs:166-179) that vary or matter to the claims: width and height come
from the current size; desired maximum frame latency is the constant 2.
Format, usage, alpha mode and present mode are fixed constants in the source
and are omitted. -/
structure SurfaceConfiguration where
  width : Nat
  height : Nat
  desired_maximum_frame_latency : Nat
deriving DecidableEq

/-- A GPU texture as created by device.create_texture (main.rs:181-194).
The id field instruments object identity: every create_texture call yields a
texture with a fresh id, so two textures with different ids are distinct GPU
objects. -/
structure Texture where
  id : Nat
  width : Nat
  height : Nat
deriving DecidableEq

/-- The logical wgpu device; nextTextureId is the instrumentation counter
from which create_texture draws fresh texture ids. -/
structure Device where
  nextTextureId : Nat
deriving DecidableEq

/-- device.create_texture with a 2D extent of the given width and height
(main.rs:181-194): returns the new texture and the device with its id
counter advanced. -/
def Device.createTexture (d : Device) (w h : Nat) : Texture × Device :=
  ({ id := d.nextTextureId, width := w, height := h },
   { nextTextureId := d.nextTextureId + 1 })

/-- The State struct (main.rs:35-46), restricted to the fields the claims
are about. appliedConfigs instruments surface.configure: it records every
SurfaceConfiguration ever applied, most recent first. depth_texture mirrors
the Option wgpu Texture field of the source. -/
structure State where
  size : PhysicalSize
  device : Device
  appliedConfigs : List SurfaceConfiguration
  depth_texture : Option Texture
deriving DecidableEq

/-- State::configure_surface (main.rs:163-196): applies a surface
configuration whose width and height are the current size (with desired
maximum frame latency 2), then creates a depth texture of exactly that size
and stores it in depth_texture. -/
def State.configure_surface (s : State) : State :=
  let cfg : SurfaceConfiguration :=
    { width := s.size.width
      height := s.size.height
      desired_maximum_frame_latency := 2 }
  match s.device.createTexture s.size.width s.size.height with
  | (texture, device) =>
    { s with
      appliedConfigs := cfg :: s.appliedConfigs
      device := device
      depth_texture := some texture }

/-- State::resize (main.rs:198-203): stores new_size into self.size and
unconditionally calls configure_surface. There is no comparison with the
previous size in the source. -/
def State.resize (s : State) (new_size : PhysicalSize) : State :=
  ({ s with size := new_size }).configure_surface

/-- State::new (main.rs:49-157), reduced to the fields of the model: the
state starts with the window surface size, a fresh device, no applied
configuration and depth_texture none, and construction ends with the first
configure_surface call (main.rs:154). -/
def State.new (windowSize : PhysicalSize) : State :=
  State.configure_surface
    { size := windowSize
      device := { nextTextureId := 0 }
      appliedConfigs := []
      depth_texture := none }

/-- One step of the one-time initialization sequence. -/
inductive InitStep
  | graphicsContext
  | pipelineBuild
  | geometryUpload
  | surfaceConfigure
  | requestRedraw
deriving DecidableEq

/-- App::can_create_surfaces (main.rs:291-306): builds the window, blocks on
State::new and then requests an initial redraw. The returned trace records
the order of the one-time initialization steps as they occur in the source:
request_adapter and request_device (main.rs:60-75), create_render_pipeline
(main.rs:90-117), create_buffer_init for the vertex data (main.rs:121-138),
configure_surface (main.rs:154), then window.request_redraw (main.rs:305). -/
def can_create_surfaces (windowSize : PhysicalSize) : State × List InitStep :=
  (State.new windowSize,
   [InitStep.graphicsContext, InitStep.pipelineBuild, InitStep.geometryUpload,
    InitStep.surfaceConfigure, InitStep.requestRedraw])

/-- Modelled from the spec: the initialization order the spec claims, namely
GraphicsContext creation, then SurfaceManager.configure, then RenderPipeline
build, then GeometryBuffer.upload, then the initial redraw request. Defined
only for comparison with the order extracted from the source. -/
def specClaimedInitOrder : List InitStep :=
  [InitStep.graphicsContext, InitStep.surfaceConfigure, InitStep.pipelineBuild,
   InitStep.geometryUpload, InitStep.requestRedraw]

/-- An RGBA clear color (wgpu Color); the source only ever uses literal
constants, modelled as rationals. -/
structure Color where
  r : Rat
  g : Rat
  b : Rat
  a : Rat
deriving DecidableEq

/-- The fixed clear color of the render pass (main.rs:230-235). -/
def grayClear : Color := { r := 3/10, g := 3/10, b := 3/10, a := 1 }

/-- The commands recorded into the render pass of State::render
(main.rs:224-261). beginRenderPass carries the color clear value, the depth
texture whose view is the depth stencil attachment, the depth clear value
and the stencil clear value. draw carries the vertex range start and end and
the instance range start and end, as in renderpass.draw(0..3, 0..1). -/
inductive Cmd
  | beginRenderPass (clearColor : Color) (depthView : Texture)
      (depthClear : Rat) (stencilClear : Nat)
  | setPipeline
  | setVertexBuffer (slot : Nat)
  | draw (vertStart vertEnd instStart instEnd : Nat)
deriving DecidableEq

/-- True exactly on draw commands. -/
def Cmd.isDraw : Cmd → Bool
  | .draw _ _ _ _ => true
  | _ => false

/-- The errors surface.get_current_texture can report; Lost, Outdated and
Timeout are the ones the spec calls recoverable. -/
inductive SurfaceError
  | Lost
  | Outdated
  | Timeout
  | Other
deriving DecidableEq

/-- A successfully acquired surface texture (the frame). -/
structure SurfaceTexture where
  id : Nat
deriving DecidableEq

/-- The outcome of surface.get_current_texture (main.rs:207-209), supplied
to render as an explicit argument since it is decided by the environment. -/
inductive AcquireResult
  | ok (frame : SurfaceTexture)
  | err (e : SurfaceError)
deriving DecidableEq

/-- The panics the modelled code can raise. acquireExpectFailed is the
expect on get_current_texture (main.rs:210); depthTextureUnwrapNone is the
unwrap on self.depth_texture (main.rs:240-243); stateUnwrapNone is the
unwrap on self.state in App::window_event (main.rs:314). -/
inductive Panic
  | acquireExpectFailed (e : SurfaceError)
  | depthTextureUnwrapNone
  | stateUnwrapNone
deriving DecidableEq

/-- What a completed render call did: the command sequence submitted to the
queue (main.rs:265), whether pre_present_notify was called (main.rs:266) and
whether the frame was presented (main.rs:267). -/
structure RenderOutput where
  submitted : List Cmd
  prePresentNotified : Bool
  presented : Bool
deriving DecidableEq

/-- State::render (main.rs:205-268). The expect on acquisition panics on any
acquisition error, before any command encoder exists. On success, the unwrap
of depth_texture panics if it is none; otherwise one render pass is recorded
clearing color to grayClear, depth to 1 and stencil to 0 on the depth
texture view, the pipeline and vertex buffer are bound, draw(0..3, 0..1) is
issued, the commands are submitted, the window is notified and the frame is
presented. The state fields of the model are unchanged by render. -/
def State.render (s : State) (acq : AcquireResult) :
    Except Panic (State × RenderOutput) :=
  match acq with
  | .err e => .error (.acquireExpectFailed e)
  | .ok _frame =>
    match s.depth_texture with
    | none => .error .depthTextureUnwrapNone
    | some depthTex =>
      .ok (s,
        { submitted :=
            [Cmd.beginRenderPass grayClear depthTex 1 0,
             Cmd.setPipeline,
             Cmd.setVertexBuffer 0,
             Cmd.draw 0 3 0 1]
          prePresentNotified := true
          presented := true })

/-- The App struct (main.rs:271-274): state is None until can_create_surfaces
has run. -/
structure App where
  state : Option State
deriving DecidableEq

/-- The window events dispatched to App::window_event (main.rs:315-331). -/
inductive WindowEvent
  | closeRequested
  | redrawRequested
  | surfaceResized (size : PhysicalSize)
  | other
deriving DecidableEq

/-- Observable effects of one App::window_event dispatch. -/
inductive AppEffect
  | exitLoop
  | renderedFrame (out : RenderOutput)
  | requestedRedraw
  | resized (size : PhysicalSize)
deriving DecidableEq

/-- App::window_event (main.rs:308-333). The source unwraps self.state
before matching on the event (main.rs:314), so every event delivered while
state is None panics, whatever the event is. CloseRequested exits the loop;
RedrawRequested renders and then requests another redraw; SurfaceResized
resizes without rendering; anything else is ignored. -/
def App.window_event (app : App) (ev : WindowEvent) (acq : AcquireResult) :
    Except Panic (App × List AppEffect) :=
  match app.state with
  | none => .error .stateUnwrapNone
  | some s =>
    match ev with
    | .closeRequested => .ok ({ state := some s }, [.exitLoop])
    | .redrawRequested =>
      match s.render acq with
      | .error p => .error p
      | .ok (s', out) =>
        .ok ({ state := some s' }, [.renderedFrame out, .requestedRedraw])
    | .surfaceResized size =>
      .ok ({ state := some (s.resize size) }, [.resized size])
    | .other => .ok ({ state := some s }, [])

/-- A State is reachable when it is produced by State::new followed by any
sequence of resize calls and completed render calls. -/
inductive Reachable : State → Prop
  | new (sz : PhysicalSize) : Reachable (State.new sz)
  | resize {s : State} (h : Reachable s) (sz : PhysicalSize) :
      Reachable (s.resize sz)
  | render {s s' : State} {acq : AcquireResult} {out : RenderOutput}
      (h : Reachable s) (hr : s.render acq = .ok (s', out)) : Reachable s'

/-- Running a list of resize calls in order. -/
def runResizes (s : State) (szs : List PhysicalSize) : State :=
  szs.foldl State.resize s

/-- A surface configuration with positive width and height. -/
def SurfaceConfiguration.positive (c : SurfaceConfiguration) : Prop :=
  0 < c.width ∧ 0 < c.height

lemma configure_surface_depth (s : State) :
    (s.configure_surface).depth_texture =
      some ⟨s.device.nextTextureId, s.size.width, s.size.height⟩ := rfl

lemma configure_surface_next (s : State) :
    (s.configure_surface).device.nextTextureId = s.device.nextTextureId + 1 := rfl

lemma configure_surface_configs (s : State) :
    (s.configure_surface).appliedConfigs =
      ⟨s.size.width, s.size.height, 2⟩ :: s.appliedConfigs := rfl

lemma render_err (s : State) (e : SurfaceError) :
    s.render (.err e) = .error (.acquireExpectFailed e) := rfl

lemma render_ok_eq (s : State) (f : SurfaceTexture) (dt : Texture)
    (h : s.depth_texture = some dt) :
    s.render (.ok f) = .ok (s,
      { submitted :=
          [Cmd.beginRenderPass grayClear dt 1 0,
           Cmd.setPipeline,
           Cmd.setVertexBuffer 0,
           Cmd.draw 0 3 0 1]
        prePresentNotified := true
        presented := true }) := by
  unfold State.render
  rw [h]

lemma render_ok_inv {s s' : State} {acq : AcquireResult} {out : RenderOutput}
    (h : s.render acq = .ok (s', out)) :
    s' = s ∧ ∃ dt, s.depth_texture = some dt ∧
      out = { submitted :=
                [Cmd.beginRenderPass grayClear dt 1 0,
                 Cmd.setPipeline,
                 Cmd.setVertexBuffer 0,
                 Cmd.draw 0 3 0 1]
              prePresentNotified := true
              presented := true } := by
  cases acq with
  | err e => exact absurd h (by simp [State.render])
  | ok f =>
    cases hd : s.depth_texture with
    | none => exact absurd h (by simp [State.render, hd])
    | some dt =>
      rw [render_ok_eq s f dt hd] at h
      injection h with h
      injection h with h1 h2
      exact ⟨h1.symm, dt, rfl, h2.symm⟩

lemma reachable_depth {s : State} (hs : Reachable s) :
    ∃ t, s.depth_texture = some t ∧ t.id < s.device.nextTextureId := by
  induction hs with
  | new sz =>
    exact ⟨_, configure_surface_depth _, Nat.lt_succ_self _⟩
  | resize h sz ih =>
    exact ⟨_, configure_surface_depth _, Nat.lt_succ_self _⟩
  | render h hr ih =>
    obtain ⟨heq, -⟩ := render_ok_inv hr
    exact heq ▸ ih

lemma runResizes_configs_pos (szs : List PhysicalSize) (s : State)
    (hs : ∀ cfg ∈ s.appliedConfigs, cfg.positive)
    (h : ∀ sz ∈ szs, 0 < sz.width ∧ 0 < sz.height) :
    ∀ cfg ∈ (runResizes s szs).appliedConfigs, cfg.positive := by
  induction szs generalizing s with
  | nil =>
    intro cfg hcfg
    exact hs cfg hcfg
  | cons sz szs ih =>
    refine ih (s.resize sz) ?_ ?_
    · intro cfg hcfg
      rw [show (s.resize sz).appliedConfigs =
            ⟨sz.width, sz.height, 2⟩ :: s.appliedConfigs from rfl] at hcfg
      rcases List.mem_cons.mp hcfg with hceq | hmem
      · subst hceq
        exact h sz (List.mem_cons_self sz szs)
      · exact hs cfg hmem
    · intro x hx
      exact h x (List.mem_cons_of_mem sz hx)

/-- C1 counterexample: at the concrete state produced by initialization at
size 800 by 600, a render invocation whose frame acquisition fails with
SurfaceOutdated, SurfaceLost or Timeout panics via the expect at main.rs:210
instead of reconfiguring the surface and deferring the draw; the error is
propagated to the user as a crash, so the claim as stated is false. -/
theorem render_acquire_error_crashes_cex :
    (State.new ⟨800, 600⟩).render (.err .Outdated) =
        .error (.acquireExpectFailed .Outdated) ∧
    (State.new ⟨800, 600⟩).render (.err .Lost) =
        .error (.acquireExpectFailed .Lost) ∧
    (State.new ⟨800, 600⟩).render (.err .Timeout) =
        .error (.acquireExpectFailed .Timeout) :=
  ⟨rfl, rfl, rfl⟩

/-- C1 amended: for every invocation of render in which frame acquisition
fails, with SurfaceLost, SurfaceOutdated, Timeout or any other error, render
panics through the expect on get_current_texture; no reconfiguration of the
surface or depth attachment occurs and no draw is deferred, so the error is
propagated as a crash. -/
theorem render_acquire_error_panics (s : State) (e : SurfaceError) :
    s.render (.err e) = .error (.acquireExpectFailed e) := rfl

/-- C2 counterexample: starting from the state produced by initialization at
size 800 by 600, whose current size is exactly 800 by 600, calling resize
with the same size 800 by 600 is not a no-op: a second surface configuration
is applied and a new depth texture replaces the old one, so the claim as
stated is false. -/
theorem resize_same_size_reconfigures_cex :
    (State.new ⟨800, 600⟩).size = ⟨800, 600⟩ ∧
    ((State.new ⟨800, 600⟩).resize ⟨800, 600⟩).appliedConfigs.length = 2 ∧
    ((State.new ⟨800, 600⟩).resize ⟨800, 600⟩).depth_texture ≠
      (State.new ⟨800, 600⟩).depth_texture := by
  decide

/-- C2 amended: every call of resize, including one whose new size equals
the current configured size, re-enters configure: it applies one more
surface configuration at the new size and creates a fresh depth texture,
advancing the texture id counter. The source contains no comparison of the
new size with the current one. -/
theorem resize_always_reconfigures (s : State) (sz : PhysicalSize) :
    (s.resize sz).appliedConfigs = ⟨sz.width, sz.height, 2⟩ :: s.appliedConfigs ∧
    (s.resize sz).depth_texture =
      some ⟨s.device.nextTextureId, sz.width, sz.height⟩ ∧
    (s.resize sz).device.nextTextureId = s.device.nextTextureId + 1 :=
  ⟨rfl, rfl, rfl⟩

/-- C3 counterexample: at the concrete state produced by initialization at
size 640 by 480, a render invocation in which frame acquisition reports
SurfaceOutdated panics. The process aborts inside the render call, so the
state is not left such that a subsequent configure followed by render
succeeds; the claim as stated is false. -/
theorem render_outdated_crash_cex :
    (State.new ⟨640, 480⟩).render (.err .Outdated) =
      .error (.acquireExpectFailed .Outdated) := rfl

/-- C3 amended: a render invocation in which frame acquisition reports
SurfaceOutdated panics on the expect before any command encoder is created,
so no command sequence is submitted to the queue and no partial frame is
presented; however the panic crashes the process, so no subsequent configure
and render happen on that state. -/
theorem render_outdated_no_submission (s : State) :
    s.render (.err .Outdated) = .error (.acquireExpectFailed .Outdated) := rfl

/-- C4: for every successful render invocation, the submitted command
sequence contains exactly one draw command, and it is draw(0..3, 0..1), that
is vertex count 3 and instance count 1. -/
theorem render_exactly_one_draw (s s' : State) (acq : AcquireResult)
    (out : RenderOutput) (h : s.render acq = .ok (s', out)) :
    out.submitted.filter Cmd.isDraw = [Cmd.draw 0 3 0 1] := by
  obtain ⟨-, dt, -, rfl⟩ := render_ok_inv h
  rfl

/-- C4 witness: the theorem applied to the concrete successful render from
the state initialized at size 800 by 600. -/
theorem render_exactly_one_draw_witness :
    (RenderOutput.mk
      [Cmd.beginRenderPass grayClear ⟨0, 800, 600⟩ 1 0,
       Cmd.setPipeline, Cmd.setVertexBuffer 0,
       Cmd.draw 0 3 0 1] true true).submitted.filter Cmd.isDraw =
      [Cmd.draw 0 3 0 1] :=
  render_exactly_one_draw (State.new ⟨800, 600⟩) (State.new ⟨800, 600⟩)
    (.ok ⟨0⟩) _ rfl

/-- C5: every render invocation that acquires a frame successfully submits
exactly the command sequence that begins a single render pass clearing the
color view to the gray color with components 3/10, 3/10, 3/10, 1 and
clearing the depth attachment view to depth 1 and stencil 0, then binds the
pipeline and the geometry buffer, and then issues the draw; the frame is
presented after pre-present notification. -/
theorem render_command_sequence (s : State) (f : SurfaceTexture) (dt : Texture)
    (h : s.depth_texture = some dt) :
    s.render (.ok f) = .ok (s,
      { submitted :=
          [Cmd.beginRenderPass ⟨3/10, 3/10, 3/10, 1⟩ dt 1 0,
           Cmd.setPipeline,
           Cmd.setVertexBuffer 0,
           Cmd.draw 0 3 0 1]
        prePresentNotified := true
        presented := true }) :=
  render_ok_eq s f dt h

/-- C5 witness: the theorem applied to the concrete state initialized at
size 800 by 600, whose depth texture is the texture with id 0 and size 800
by 600. -/
theorem render_command_sequence_witness :
    (State.new ⟨800, 600⟩).depth_texture = some ⟨0, 800, 600⟩ ∧
    (State.new ⟨800, 600⟩).render (.ok ⟨7⟩) = .ok (State.new ⟨800, 600⟩,
      { submitted :=
          [Cmd.beginRenderPass ⟨3/10, 3/10, 3/10, 1⟩ ⟨0, 800, 600⟩ 1 0,
           Cmd.setPipeline,
           Cmd.setVertexBuffer 0,
           Cmd.draw 0 3 0 1]
        prePresentNotified := true
        presented := true }) :=
  ⟨rfl, render_command_sequence (State.new ⟨800, 600⟩) ⟨7⟩ ⟨0, 800, 600⟩ rfl⟩

/-- C6: after every resize with a size different from the current one, the
depth texture is the freshly created texture whose width and height equal
the new size exactly, and it is a different texture object from the previous
depth texture: the attachment is recreated, not resized in place. -/
theorem resize_recreates_depth_at_new_size (s : State) (hs : Reachable s)
    (sz : PhysicalSize) (hne : s.size ≠ sz) :
    (s.resize sz).depth_texture =
      some ⟨s.device.nextTextureId, sz.width, sz.height⟩ ∧
    ∀ t₀, s.depth_texture = some t₀ →
      t₀ ≠ (⟨s.device.nextTextureId, sz.width, sz.height⟩ : Texture) := by
  refine ⟨rfl, ?_⟩
  intro t₀ h₀ heq
  obtain ⟨t, ht, hlt⟩ := reachable_depth hs
  rw [ht] at h₀
  rw [Option.some.inj h₀, heq] at hlt
  exact Nat.lt_irrefl _ hlt

/-- C6 witness: the theorem applied to the concrete reachable state
initialized at size 800 by 600 and a resize to 400 by 300. -/
theorem resize_recreates_depth_witness :
    (State.new ⟨800, 600⟩).size ≠ (⟨400, 300⟩ : PhysicalSize) ∧
    ((State.new ⟨800, 600⟩).resize ⟨400, 300⟩).depth_texture =
      some ⟨1, 400, 300⟩ ∧
    (⟨0, 800, 600⟩ : Texture) ≠ (⟨1, 400, 300⟩ : Texture) :=
  ⟨by decide,
   (resize_recreates_depth_at_new_size (State.new ⟨800, 600⟩)
      (Reachable.new ⟨800, 600⟩) ⟨400, 300⟩ (by decide)).1,
   (resize_recreates_depth_at_new_size (State.new ⟨800, 600⟩)
      (Reachable.new ⟨800, 600⟩) ⟨400, 300⟩ (by decide)).2 ⟨0, 800, 600⟩ rfl⟩

/-- C7 counterexample: the one-time initialization trace extracted from the
source differs from the order the spec claims: in the source the pipeline is
built and the vertex buffer uploaded before configure_surface runs, while
the claim places SurfaceManager.configure second, right after
GraphicsContext creation. -/
theorem init_order_cex :
    (can_create_surfaces ⟨800, 600⟩).2 ≠ specClaimedInitOrder := by
  decide

/-- C7 amended: on the surface creatable event, one-time initialization
performs its steps in the order GraphicsContext creation, then
RenderPipeline build, then GeometryBuffer upload, then
SurfaceManager.configure, and then requests an initial redraw. -/
theorem init_order_actual (sz : PhysicalSize) :
    (can_create_surfaces sz).2 =
      [InitStep.graphicsContext, InitStep.pipelineBuild,
       InitStep.geometryUpload, InitStep.surfaceConfigure,
       InitStep.requestRedraw] := rfl

/-- C8 counterexample: resizing the state initialized at 800 by 600 to the
size 0 by 0, as the window system reports when a window is minimized,
applies a surface configuration whose width and height are 0: the source
never checks positivity, so the claim as stated is false. -/
theorem resize_zero_size_config_cex :
    ((State.new ⟨800, 600⟩).resize ⟨0, 0⟩).appliedConfigs.head? =
      some ⟨0, 0, 2⟩ ∧
    ¬ (⟨0, 0, 2⟩ : SurfaceConfiguration).positive :=
  ⟨rfl, fun h => Nat.lt_irrefl 0 h.1⟩

/-- C8 amended: every applied surface configuration takes its width and
height from the then-current size, so all applied configurations have
positive width and height provided the initial window size and every
resize size are positive; the code itself does not enforce positivity. -/
theorem configs_positive_under_positive_inputs (w : PhysicalSize)
    (szs : List PhysicalSize) (hw : 0 < w.width ∧ 0 < w.height)
    (h : ∀ sz ∈ szs, 0 < sz.width ∧ 0 < sz.height) :
    ∀ cfg ∈ (runResizes (State.new w) szs).appliedConfigs, cfg.positive := by
  refine runResizes_configs_pos szs (State.new w) ?_ h
  intro cfg hcfg
  rw [show (State.new w).appliedConfigs = [⟨w.width, w.height, 2⟩] from rfl]
    at hcfg
  rw [List.mem_singleton.mp hcfg]
  exact hw

/-- C8 witness: the theorem applied to the run that initializes at 800 by
600 and resizes once to 400 by 300, at the configuration applied by that
resize. -/
theorem configs_positive_witness :
    SurfaceConfiguration.positive ⟨400, 300, 2⟩ :=
  configs_positive_under_positive_inputs ⟨800, 600⟩ [⟨400, 300⟩]
    (by decide) (by decide) ⟨400, 300, 2⟩ (by decide)

/-- C9: every window event delivered while the application state is still
None panics on the unwrap of self.state, which the source performs before
matching on the event; this covers resize, close and ignored events, not
only redraw. -/
theorem window_event_unwrap_none_panics (ev : WindowEvent)
    (acq : AcquireResult) :
    App.window_event { state := none } ev acq = .error .stateUnwrapNone := rfl

/-- C10: in every state reachable by construction followed by any sequence
of resize and completed render calls, the depth texture field is Some, and
consequently a render with a successfully acquired frame never fails on the
unwrap of the depth texture. -/
theorem depth_texture_always_some (s : State) (hs : Reachable s) :
    s.depth_texture.isSome = true ∧
    ∀ f : SurfaceTexture,
      s.render (.ok f) ≠ Except.error Panic.depthTextureUnwrapNone := by
  obtain ⟨t, ht, -⟩ := reachable_depth hs
  refine ⟨by rw [ht]; rfl, ?_⟩
  intro f hcontra
  rw [render_ok_eq s f t ht] at hcontra
  exact Except.noConfusion hcontra

/-- C10 witness: the theorem applied to the concrete reachable state
initialized at size 1024 by 768, with the successful acquisition of frame 0. -/
theorem depth_texture_always_some_witness :
    (State.new ⟨1024, 768⟩).depth_texture.isSome = true ∧
    (State.new ⟨1024, 768⟩).render (.ok ⟨0⟩) ≠
      Except.error Panic.depthTextureUnwrapNone :=
  ⟨(depth_texture_always_some (State.new ⟨1024, 768⟩)
      (Reachable.new ⟨1024, 768⟩)).1,
   (depth_texture_always_some (State.new ⟨1024, 768⟩)
      (Reachable.new ⟨1024, 768⟩)).2 ⟨0⟩⟩

end WgpuGltf
